import Mathlib

/-!
Verification of `src/Front/src/components/image_converter/ImageConverter.tsx`.

The component is shallowly embedded: React state is a record (`CompState`),
the browser object-URL table and the set of in-flight asynchronous
conversions form an environment record (`Env`), and each event handler of
the source is a function on that environment.  JavaScript numbers are
modelled as rationals (`ℚ`); JavaScript strings as Lean `String`.

A central point of the embedding is React closure semantics: the constants
`format`, `quality`, `convertedUrl` read inside `convertOnly`'s asynchronous
callbacks are the values of the render in which the handler ran, captured
BEFORE any `setX` call of that handler takes visible effect.  Handlers
therefore take a render snapshot and record the captured values in the
pending operation.
-/

namespace ImageConverter

/-- The four target formats of the `format` state
(`useState<"jpeg" | "png" | "webp" | "avif">`). -/
inductive Format where
  | jpeg
  | png
  | webp
  | avif
deriving DecidableEq

/-- File-extension string used in `converted.${format}` (`handleDownload`). -/
def Format.ext : Format → String
  | .jpeg => "jpeg"
  | .png => "png"
  | .webp => "webp"
  | .avif => "avif"

/-- JavaScript `str.split(sep)` for a single-character separator, on the
character list of the string: used for `file.type.split("/")` in
`autoConvert`. -/
def splitChar (sep : Char) : List Char → List (List Char)
  | [] => [[]]
  | c :: rest =>
    if c = sep then
      [] :: splitChar sep rest
    else
      match splitChar sep rest with
      | [] => [[c]]
      | g :: gs => (c :: g) :: gs

/-- `file.type.split("/")[1]` as in `autoConvert` (line 46); `none` models
JavaScript `undefined` when the index is out of range. -/
def mimeSubtype (mime : String) : Option String :=
  (((splitChar '/' mime.data)).map List.asString).get? 1

/-- A `File` as used by the component: declared MIME type and byte size. -/
structure FileM where
  mime : String
  size : ℕ
deriving DecidableEq

/-- The blob produced by `canvas.toBlob`: we record the format and quality
the encoder was invoked with (arguments of `toBlob`, lines 91-92) and the
byte size, so that theorems can state which request a published result
reflects. -/
structure Blob where
  fmt : Format
  q : ℚ
  size : ℕ
deriving DecidableEq

/-- Which blob an object URL was created for: the source file (display URL
of `handleNewFile`, decode URL of `convertOnly`, or `handleDownload`'s link
href for the converted blob). -/
inductive LocTarget where
  | original
  | converted
deriving DecidableEq

/-- The component's React state (lines 6-14). -/
structure CompState where
  file : Option FileM
  format : Format
  quality : ℚ
  convertedUrl : Option ℕ
  convertedBlob : Option Blob
  originalUrl : Option ℕ
  zoomLevel : ℚ
deriving DecidableEq

/-- An in-flight `convertOnly` operation: the input file together with the
render-captured values of `format`, `quality` and `convertedUrl` that its
`img.onload` / `toBlob` callbacks close over (lines 70-95). -/
structure PendingConv where
  inputFile : FileM
  capFormat : Format
  capQuality : ℚ
  capConvertedUrl : Option ℕ
deriving DecidableEq

/-- Component state plus browser-level state: the object-URL allocator
(`URL.createObjectURL` hands out fresh locators), the list of live
(created and not yet revoked) locators with their targets, and the list of
pending asynchronous conversions. -/
structure Env where
  comp : CompState
  nextLoc : ℕ
  live : List (ℕ × LocTarget)
  pending : List PendingConv
deriving DecidableEq

/-- `URL.createObjectURL`: returns a fresh locator and registers it live. -/
def createObjectURL (t : LocTarget) (e : Env) : ℕ × Env :=
  (e.nextLoc,
   { e with nextLoc := e.nextLoc + 1, live := e.live ++ [(e.nextLoc, t)] })

/-- `URL.revokeObjectURL`: removes the locator from the live set;
revoking an already-revoked locator is a no-op. -/
def revokeObjectURL (u : ℕ) (e : Env) : Env :=
  { e with live := e.live.filter (fun p => p.1 ≠ u) }

/-- `convertOnly(inputFile)` (lines 70-95), up to its suspension points:
it synchronously creates an object URL for the input file (`img.src =
URL.createObjectURL(inputFile)`, line 72 — never revoked) and registers a
pending asynchronous operation whose callbacks have captured the render's
`format`, `quality` and `convertedUrl` (`render` is the state snapshot of
the render the handler closure came from). -/
def convertOnly (render : CompState) (inputFile : FileM) (e : Env) : Env :=
  let e1 := (createObjectURL .original e).2
  { e1 with
    pending := e1.pending ++
      [{ inputFile := inputFile, capFormat := render.format,
         capQuality := render.quality,
         capConvertedUrl := render.convertedUrl }] }

/-- Completion of pending conversion number `i` (its `img.onload` fired and
`canvas.toBlob` delivered `result`): `result = none` models a `null` blob
from `toBlob` — or equivalently a missing 2d context, in which case the
callback body is never reached — and `result = some size` a delivered blob
of `size` bytes, encoded at the operation's captured format and quality.
The callback (lines 83-89) runs `if (blob)` — only `null` is rejected, a
zero-byte blob is truthy — then revokes the CAPTURED `convertedUrl` and
publishes a fresh object URL and the blob. -/
def completePending (i : ℕ) (result : Option ℕ) (e : Env) : Env :=
  match e.pending.get? i with
  | none => e
  | some op =>
    let e1 := { e with pending := e.pending.eraseIdx i }
    match result with
    | none => e1
    | some size =>
      let e2 := match op.capConvertedUrl with
                | some u => revokeObjectURL u e1
                | none => e1
      let alloc := createObjectURL .converted e2
      { alloc.2 with
        comp := { alloc.2.comp with
                  convertedUrl := some alloc.1,
                  convertedBlob :=
                    some { fmt := op.capFormat, q := op.capQuality,
                           size := size } } }

/-- `autoConvert(file)` (lines 45-53): infer the default target format from
the declared MIME subtype, `setFormat` it, then `convertOnly(file)` — whose
callbacks capture the values of the render snapshot `render`, NOT the value
just passed to `setFormat`. -/
def autoConvert (render : CompState) (f : FileM) (e : Env) : Env :=
  let ext := mimeSubtype f.mime
  let fmt := if ext = some "jpeg" ∨ ext = some "jpg" then Format.png
             else Format.jpeg
  let e1 := { e with comp := { e.comp with format := fmt } }
  convertOnly render f e1

/-- `handleNewFile(file)` (lines 38-43): create a display object URL for
the file (the previous `originalUrl`, if any, is NOT revoked), set `file`
and `originalUrl`, then `autoConvert(file)`. -/
def handleNewFile (f : FileM) (e : Env) : Env :=
  let render := e.comp
  let alloc := createObjectURL .original e
  let e1 := { alloc.2 with
              comp := { alloc.2.comp with
                        file := some f, originalUrl := some alloc.1 } }
  autoConvert render f e1

/-- `handleFormatChange(value)` (lines 55-60): `setFormat(value)`, then if a
file is loaded `convertOnly(file)` — the conversion's callbacks capture the
CURRENT render's `format`/`quality`/`convertedUrl`, not `value`. -/
def handleFormatChange (value : Format) (e : Env) : Env :=
  let render := e.comp
  let e1 := { e with comp := { e.comp with format := value } }
  match render.file with
  | some f => convertOnly render f e1
  | none => e1

/-- `handleQualityChange` (lines 62-68) with the parsed slider value:
`setQuality(newQuality)`, then if a file is loaded `convertOnly(file)`,
capturing the current render's values. -/
def handleQualityChange (newQuality : ℚ) (e : Env) : Env :=
  let render := e.comp
  let e1 := { e with comp := { e.comp with quality := newQuality } }
  match render.file with
  | some f => convertOnly render f e1
  | none => e1

/-- `handleReset` (lines 154-160): null out `file`, `originalUrl`,
`convertedUrl`, `convertedBlob` and set `zoomLevel` to 1.  No
`URL.revokeObjectURL` call appears in the handler. -/
def handleReset (e : Env) : Env :=
  { e with comp := { e.comp with
                     file := none, originalUrl := none,
                     convertedUrl := none, convertedBlob := none,
                     zoomLevel := 1 } }

/-- Externally visible effect of `handleDownload`: a navigation-triggered
download of the given href locator under the given filename
(`link.click()`). -/
structure DownloadEffect where
  href : ℕ
  filename : String
deriving DecidableEq

/-- `handleDownload` (lines 162-168): if no converted blob exists, return
immediately; otherwise create an object URL for the converted blob and
click a link downloading it as `converted.${format}`. -/
def handleDownload (e : Env) : Env × List DownloadEffect :=
  match e.comp.convertedBlob with
  | none => (e, [])
  | some _ =>
    let alloc := createObjectURL .converted e
    (alloc.2, [{ href := alloc.1,
                 filename := "converted." ++ e.comp.format.ext }])

/-- `zoomIn` (line 170): `Math.min(z + 0.1, 3)`. -/
def zoomIn (z : ℚ) : ℚ := min (z + 1/10) 3

/-- `zoomOut` (line 171): `Math.max(z - 0.1, 0.5)`. -/
def zoomOut (z : ℚ) : ℚ := max (z - 1/10) (1/2)

/-- `zoomFit` (line 172): `setZoomLevel(1)`. -/
def zoomFit (_ : ℚ) : ℚ := 1

/-- The three zoom buttons. -/
inductive ZoomAction where
  | zin
  | zout
  | zfit
deriving DecidableEq

/-- Effect of one zoom button press on the zoom scalar. -/
def applyZoom : ZoomAction → ℚ → ℚ
  | .zin, z => zoomIn z
  | .zout, z => zoomOut z
  | .zfit, z => zoomFit z

/-- Visual output of `moveSlider`: the four `inset` components (in percent)
written to `clipRef.current.style.clipPath`, and the percentage written to
`dividerRef.current.style.left`. -/
structure SliderView where
  clipInset : ℚ × ℚ × ℚ × ℚ
  dividerLeft : ℚ
deriving DecidableEq

/-- `moveSlider(clientX)` (lines 97-107) given the container's bounding
rectangle: `pos = ((clientX - rect.left) / rect.width) * 100`, clamped by
`Math.min(Math.max(pos, 0), 100)`; write `inset(0 ${100 - pos}% 0 0)` and
`left = ${pos}%`. -/
def moveSlider (clientX rectLeft rectWidth : ℚ) : SliderView :=
  let pos0 := ((clientX - rectLeft) / rectWidth) * 100
  let pos := min (max pos0 0) 100
  { clipInset := (0, 100 - pos, 0, 0), dividerLeft := pos }

/-- JavaScript `x.toFixed(1)` as a rational: round to the nearest tenth,
ties away from zero for the nonnegative values that occur here (Mathlib's
`round` is round-half-up, matching `toFixed` on nonnegative arguments). -/
def toFixed1 (x : ℚ) : ℚ := (round (x * 10) : ℤ) / 10

/-- Result of `formatFileSize`: the unit chosen and the numeric value shown
(`bytes` renders the integer, `kb`/`mb` render one decimal). -/
inductive FileSizeText where
  | bytes (n : ℕ)
  | kb (v : ℚ)
  | mb (v : ℚ)
deriving DecidableEq

/-- `formatFileSize(size)` (lines 186-190). -/
def formatFileSize (size : ℕ) : FileSizeText :=
  if size < 1024 then .bytes size
  else if size < 1024 * 1024 then .kb (toFixed1 ((size : ℚ) / 1024))
  else .mb (toFixed1 ((size : ℚ) / (1024 * 1024)))


/-- A sample ingested file (declared type `image/png`, 1000 bytes). -/
def sampleFile : FileM := { mime := "image/png", size := 1000 }

/-- The freshly mounted component: initial state of the eight `useState`
hooks (`format` starts at `"jpeg"`, `quality` at `0.8`, `zoomLevel` at 1),
no object URLs handed out, no conversion in flight. -/
def eFresh : Env :=
  { comp := { file := none, format := .jpeg, quality := 4/5,
              convertedUrl := none, convertedBlob := none,
              originalUrl := none, zoomLevel := 1 },
    nextLoc := 0, live := [], pending := [] }

/-- A state with `sampleFile` loaded and one successful conversion already
published: locator 0 displays the original, locator 1 the converted blob
(png at quality 0.9, 500 bytes). -/
def eLoaded : Env :=
  { comp := { file := some sampleFile, format := .png, quality := 9/10,
              convertedUrl := some 1,
              convertedBlob := some { fmt := .png, q := 9/10, size := 500 },
              originalUrl := some 0, zoomLevel := 1 },
    nextLoc := 2, live := [(0, .original), (1, .converted)], pending := [] }

/-- `eLoaded` with the format state at `"jpeg"` instead of `"png"`. -/
def eJpegLoaded : Env :=
  { eLoaded with comp := { eLoaded.comp with format := .jpeg } }

/-- An in-flight conversion over `eLoaded`'s published result: captured
target webp at quality 0.5, captured `convertedUrl` 1. -/
def opPending : PendingConv :=
  { inputFile := sampleFile, capFormat := .webp, capQuality := 1/2,
    capConvertedUrl := some 1 }

/-- `eLoaded` with `opPending` in flight. -/
def eWithPending : Env := { eLoaded with pending := [opPending] }

/-- One zoom step keeps the scalar inside `[0.5, 3]`. -/
theorem applyZoom_mem_Icc (a : ZoomAction) (z : ℚ) (h1 : 1/2 ≤ z)
    (h2 : z ≤ 3) : 1/2 ≤ applyZoom a z ∧ applyZoom a z ≤ 3 := by
  cases a
  · exact ⟨le_min (by linarith) (by norm_num), min_le_right _ _⟩
  · exact ⟨le_max_right _ _, max_le (by linarith) (by norm_num)⟩
  · exact ⟨by norm_num [applyZoom, zoomFit], by norm_num [applyZoom, zoomFit]⟩

/-- Folding any sequence of zoom actions keeps the scalar inside
`[0.5, 3]`. -/
theorem foldl_applyZoom_mem_Icc (acts : List ZoomAction) (z : ℚ)
    (h1 : 1/2 ≤ z) (h2 : z ≤ 3) :
    1/2 ≤ acts.foldl (fun w a => applyZoom a w) z ∧
    acts.foldl (fun w a => applyZoom a w) z ≤ 3 := by
  induction acts generalizing z with
  | nil => exact ⟨h1, h2⟩
  | cons a rest ih =>
    have h := applyZoom_mem_Icc a z h1 h2
    exact ih (applyZoom a z) h.1 h.2


/-- C1: REFUTED on the code — the race scenario of the spec.  From
`eLoaded` (file loaded, format png, quality 0.9, converted locator 1
published), the user requests quality 0.5 (trigger t1) and then quality 0.3
(trigger t2).  The later-triggered operation's encode completes first
(`completePending 1`), the earlier one completes last (`completePending 0`):
the finally published blob carries quality 0.9 — the parameters captured by
t1, not t2's — even though the quality state reads 0.3.  Whichever
completion runs last wins (and each operation captured the render values
from before its own `setQuality`), so the visible result does not reflect
t2's parameters. -/
theorem race_last_completed_wins :
    (completePending 0 (some 300)
      (completePending 1 (some 200)
        (handleQualityChange (3/10)
          (handleQualityChange (1/2) eLoaded)))).comp.convertedBlob
      = some { fmt := Format.png, q := 9/10, size := 300 } ∧
    (completePending 0 (some 300)
      (completePending 1 (some 200)
        (handleQualityChange (3/10)
          (handleQualityChange (1/2) eLoaded)))).comp.quality = 3/10 ∧
    (completePending 0 (some 300)
      (completePending 1 (some 200)
        (handleQualityChange (3/10)
          (handleQualityChange (1/2) eLoaded)))).pending = [] ∧
    (9/10 : ℚ) ≠ 3/10 :=
  ⟨rfl, rfl, rfl, by norm_num⟩

/-- C2: REFUTED on the code.  With a file loaded and the format state at
`"jpeg"`, selecting `"png"` (`handleFormatChange`) does immediately issue a
conversion, but that conversion's callbacks captured the render's stale
`format = "jpeg"`: `canvas.toBlob` will be invoked with `image/jpeg`, not
the newly set `png`. -/
theorem handleFormatChange_stale_capture :
    (handleFormatChange Format.png eJpegLoaded).comp.format = Format.png ∧
    (handleFormatChange Format.png eJpegLoaded).pending.map
        PendingConv.capFormat = [Format.jpeg] ∧
    Format.jpeg ≠ Format.png :=
  ⟨rfl, rfl, by decide⟩

/-- C3: REFUTED on the code.  Loading a single file into the fresh
component leaves TWO live locators on the source image: locator 0 created
by `handleNewFile` for display, and locator 1 created by `convertOnly` for
decoding (`img.src = URL.createObjectURL(inputFile)`), which is never
revoked.  So more than one live original-image locator exists at this
inspection point. -/
theorem handleNewFile_two_original_locators :
    (handleNewFile sampleFile eFresh).live
      = [(0, LocTarget.original), (1, LocTarget.original)] ∧
    (handleNewFile sampleFile eFresh).comp.originalUrl = some 0 :=
  ⟨rfl, rfl⟩

/-- C4 counterexample: a zero-byte blob is truthy in JavaScript, so the
`if (blob)` guard lets it through — completing the pending conversion of
`eWithPending` with a zero-byte result overwrites the previously shown
converted blob instead of leaving it unchanged. -/
theorem completePending_zero_byte_overwrites :
    (completePending 0 (some 0) eWithPending).comp.convertedBlob
      = some { fmt := Format.webp, q := 1/2, size := 0 } ∧
    (completePending 0 (some 0) eWithPending).comp.convertedBlob.map
        Blob.size
      ≠ eWithPending.comp.convertedBlob.map Blob.size :=
  ⟨rfl, by decide⟩

/-- C4 (amended): if encoding yields NO blob (`canvas.toBlob` delivers
`null`, or no 2d context was available), the conversion resolves without
any effect beyond dropping the pending operation: the component state —
converted blob, its locator, and hence the info label — and the set of
live locators are left unchanged. -/
theorem completePending_null_preserves (i : ℕ) (e : Env) :
    (completePending i none e).comp = e.comp ∧
    (completePending i none e).live = e.live := by
  unfold completePending
  cases h : e.pending.get? i with
  | none => exact ⟨rfl, rfl⟩
  | some op => exact ⟨rfl, rfl⟩

/-- C5: for every ingested file whose declared MIME type has subtype `s`
(JavaScript `file.type.split("/")[1]`), `handleNewFile` sets the default
target format to png when `s` is `"jpeg"` or `"jpg"`, and to jpeg for every
other subtype. -/
theorem handleNewFile_default_format (f : FileM) (e : Env) (s : String)
    (h : mimeSubtype f.mime = some s) :
    (handleNewFile f e).comp.format =
      (if s = "jpeg" ∨ s = "jpg" then Format.png else Format.jpeg) := by
  show (if mimeSubtype f.mime = some "jpeg" ∨ mimeSubtype f.mime = some "jpg"
        then Format.png else Format.jpeg) = _
  rw [h]
  simp only [Option.some.injEq]

/-- C5 witness: loading a file of declared type `image/jpeg` yields default
target format png. -/
theorem handleNewFile_default_format_witness :
    mimeSubtype "image/jpeg" = some "jpeg" ∧
    (handleNewFile { mime := "image/jpeg", size := 2048 } eFresh).comp.format
      = Format.png := by
  refine ⟨rfl, ?_⟩
  have h := handleNewFile_default_format
    { mime := "image/jpeg", size := 2048 } eFresh "jpeg" rfl
  rw [h, if_pos (Or.inl rfl)]

/-- C6: REFUTED on the code in its release part.  `handleReset`, from any
state, clears the source file, the converted result (blob and locator
state), the original locator state, and resets zoom to exactly 1 — but it
performs no `URL.revokeObjectURL` call: the set of live locators is left
exactly as it was, so neither the original nor the converted display
locator is released. -/
theorem handleReset_clears_state_keeps_locators (e : Env) :
    (handleReset e).comp.file = none ∧
    (handleReset e).comp.originalUrl = none ∧
    (handleReset e).comp.convertedUrl = none ∧
    (handleReset e).comp.convertedBlob = none ∧
    (handleReset e).comp.zoomLevel = 1 ∧
    (handleReset e).live = e.live :=
  ⟨rfl, rfl, rfl, rfl, rfl, rfl⟩

/-- C7: for every pointer move over a container of positive width, the
divider offset equals `clamp(((pointerX - containerLeft) / containerWidth)
* 100, 0, 100)`, the converted layer's clip is the inset
`(0, 100 - position, 0, 0)` percent, a pointer left of the container gives
position 0, and a pointer right of it gives position 100. -/
theorem moveSlider_clamp_clip (clientX rectLeft rectWidth : ℚ)
    (hw : 0 < rectWidth) :
    (moveSlider clientX rectLeft rectWidth).dividerLeft
      = min (max (((clientX - rectLeft) / rectWidth) * 100) 0) 100 ∧
    (moveSlider clientX rectLeft rectWidth).clipInset
      = (0, 100 - (moveSlider clientX rectLeft rectWidth).dividerLeft,
         0, 0) ∧
    (clientX < rectLeft →
      (moveSlider clientX rectLeft rectWidth).dividerLeft = 0) ∧
    (rectLeft + rectWidth < clientX →
      (moveSlider clientX rectLeft rectWidth).dividerLeft = 100) := by
  refine ⟨rfl, rfl, ?_, ?_⟩
  · intro hL
    have hq : (clientX - rectLeft) / rectWidth < 0 :=
      div_neg_of_neg_of_pos (by linarith) hw
    have hp : ((clientX - rectLeft) / rectWidth) * 100 < 0 := by nlinarith
    show min (max (((clientX - rectLeft) / rectWidth) * 100) 0) 100 = 0
    rw [max_eq_right hp.le]
    exact min_eq_left (by norm_num)
  · intro hR
    have hq : 1 < (clientX - rectLeft) / rectWidth :=
      (one_lt_div hw).mpr (by linarith)
    have hp : 100 < ((clientX - rectLeft) / rectWidth) * 100 := by nlinarith
    show min (max (((clientX - rectLeft) / rectWidth) * 100) 0) 100 = 100
    rw [max_eq_left (by linarith)]
    exact min_eq_right hp.le

/-- C7 witness: container from 0 of width 10, pointer at -5 (left of the
container): the divider offset is clamped to 0. -/
theorem moveSlider_clamp_clip_witness :
    (0 : ℚ) < 10 ∧ (moveSlider (-5) 0 10).dividerLeft = 0 :=
  ⟨by norm_num,
   (moveSlider_clamp_clip (-5) 0 10 (by norm_num)).2.2.1 (by norm_num)⟩

/-- C8: under any sequence of zoom button presses starting from the default
scalar 1, the zoom scalar stays inside `[0.5, 3]`; moreover `zoomIn` is
exactly `min(z + 0.1, 3)`, `zoomOut` exactly `max(z - 0.1, 0.5)`, and
`zoomFit` always yields exactly 1. -/
theorem zoom_invariant (acts : List ZoomAction) :
    1/2 ≤ acts.foldl (fun w a => applyZoom a w) 1 ∧
    acts.foldl (fun w a => applyZoom a w) 1 ≤ 3 ∧
    (∀ z : ℚ, zoomIn z = min (z + 1/10) 3) ∧
    (∀ z : ℚ, zoomOut z = max (z - 1/10) (1/2)) ∧
    (∀ z : ℚ, zoomFit z = 1) := by
  have h := foldl_applyZoom_mem_Icc acts 1 (by norm_num) (by norm_num)
  exact ⟨h.1, h.2, fun z => rfl, fun z => rfl, fun z => rfl⟩

/-- C9: the byte-size formatter shows integer bytes below 1024, kilobytes
(value divided by 1024, rounded to one decimal) below 1048576, and
megabytes (value divided by 1048576, rounded to one decimal) otherwise. -/
theorem formatFileSize_spec (n : ℕ) :
    formatFileSize n =
      if n < 1024 then FileSizeText.bytes n
      else if n < 1048576 then
        FileSizeText.kb ((round ((n : ℚ) * 10 / 1024) : ℤ) / 10)
      else FileSizeText.mb ((round ((n : ℚ) * 10 / 1048576) : ℤ) / 10) := by
  have e1 : (1024 * 1024 : ℕ) = 1048576 := by norm_num
  have e2 : ((1024 : ℚ) * 1024) = 1048576 := by norm_num
  have h1 : (n : ℚ) / 1024 * 10 = (n : ℚ) * 10 / 1024 := by ring
  have h2 : (n : ℚ) / 1048576 * 10 = (n : ℚ) * 10 / 1048576 := by ring
  unfold formatFileSize toFixed1
  rw [e1, e2, h1, h2]

/-- C10: when no converted blob exists, `handleDownload` returns before
creating any locator or clicking the link: the environment is unchanged and
no download effect is produced. -/
theorem handleDownload_noop_without_blob (e : Env)
    (h : e.comp.convertedBlob = none) :
    handleDownload e = (e, []) := by
  unfold handleDownload
  rw [h]

/-- C10 witness: on the freshly mounted component (no converted blob) the
download action is a no-op. -/
theorem handleDownload_noop_without_blob_witness :
    handleDownload eFresh = (eFresh, []) :=
  handleDownload_noop_without_blob eFresh rfl

end ImageConverter
